import Mathlib

/-!
Shallow embedding of `pymodbus/client/async.py` (the Twisted asynchronous
Modbus client): the transaction-identifier allocator, the pending-request
registry, the two connection-session variants (`ModbusClientProtocol`,
stream-oriented, and `ModbusUdpClientProtocol`, datagram-oriented), and the
response dispatchers.

Modelling conventions:
* Python exceptions are made explicit: an operation that can raise returns
  its resulting state together with an `Option PyError` (side effects that
  happened before the raise persist in the state, as in Python).
* A Twisted `Deferred` is identified by a numeric id allocated from a
  per-session counter (`nextDid`); a resolution (`callback` / `errback`)
  of a deferred is recorded in an append-only `completions` log keyed by
  that id.  A deferred id is pending iff it has no entry in the log.
* The Python `dict` used as the stream session registry is an association
  list with unique keys in iteration order; `dictGet`, `dictPop` and
  `dictInsert` embed `d[k]`-style lookup, `d.pop(k, None)` and `d[k] = v`.
* The transport is the external byte sink: it is modelled by the list of
  packets handed to `transport.write`.
* The framer is external (out of scope per the module boundary); only its
  `buildPacket` signature is modelled, as an opaque function field.
-/

/-- The Python exceptions this module can produce or propagate. -/
inductive PyError where
  | connectionException (msg : String)
  | runtimeError (msg : String)
  | attributeError (msg : String)
  | indexError (msg : String)
  | nameError (msg : String)
deriving DecidableEq

/-- A decoded reply handed to a dispatcher by the framer; opaque beyond the
correlation identifier it carries (`reply.transaction_id`). -/
structure Reply where
  transaction_id : Nat
deriving DecidableEq

/-- An outgoing request; opaque beyond its mutable `transaction_id` field,
which `execute` assigns before encoding. -/
structure Request where
  transaction_id : Nat
deriving DecidableEq

/-- Terminal resolution of a Twisted `Deferred`: `callback` with the decoded
reply, or `errback` with a failure. -/
inductive Resolution where
  | callback (reply : Reply)
  | errback (e : PyError)
deriving DecidableEq

/-- The external framer, reduced to its encoding interface
(`framer.buildPacket(request)` returning the wire bytes). -/
structure Framer where
  buildPacket : Request → List Nat

/-- Stand-in for the external default framer
`ModbusSocketFramer(ClientDecoder())`; its encoding is outside this module,
so any concrete function serves. -/
def defaultFramer : Framer :=
  { buildPacket := fun r => [r.transaction_id] }

/-- Embeds Python `d.get(k)` on the registry dict: first binding for `k`. -/
def dictGet (m : List (Nat × Nat)) (k : Nat) : Option Nat :=
  match m with
  | [] => none
  | (k', v) :: rest => if k' = k then some v else dictGet rest k

/-- Embeds Python `d.pop(k, None)` on the registry dict: the popped value
(`none` when absent) together with the dict that remains. -/
def dictPop (m : List (Nat × Nat)) (k : Nat) : Option Nat × List (Nat × Nat) :=
  match m with
  | [] => (none, [])
  | (k', v) :: rest =>
    if k' = k then (some v, rest)
    else
      let r := dictPop rest k
      (r.1, (k', v) :: r.2)

/-- Embeds Python `d[k] = v` on the registry dict: overwrite the existing
binding for `k` if present, otherwise append a new one. -/
def dictInsert (m : List (Nat × Nat)) (k : Nat) (v : Nat) : List (Nat × Nat) :=
  match m with
  | [] => [(k, v)]
  | (k', v') :: rest =>
    if k' = k then (k, v) :: rest else (k', v') :: dictInsert rest k v

/-- Modelled from the spec: `ModbusTransactionManager.getNextTID` lives in
`pymodbus/transaction.py`, which is not under `src/`; spec section 4.1
specifies a monotonically increasing counter over the fixed 16-bit
identifier width, wrapping back to its minimum after the maximum.  The
manager state is the last identifier issued; the call returns the new
state together with the identifier it issues. -/
def getNextTID (mgr : Nat) : Nat × Nat :=
  let t := (mgr + 1) % 65536
  (t, t)

/-- State of a stream-oriented session (`ModbusClientProtocol`):
the framer, the pending-request registry `_requests` (transaction id to
deferred id), the `_connected` flag, the packets written to the transport,
the deferred-id allocator, and the resolution log. -/
structure StreamState where
  framer : Framer
  requests : List (Nat × Nat)
  connected : Bool
  written : List (List Nat)
  nextDid : Nat
  completions : List (Nat × Resolution)

/-- Result of `ModbusClientProtocol.execute`: the new session state, the new
allocator state, the transaction id assigned to the caller's request, and
the deferred id returned to the caller. -/
structure StreamExec where
  state : StreamState
  mgr : Nat
  tid : Nat
  did : Nat

/-- Embeds `ModbusClientProtocol.__init__` (src lines 63-70): store the
given framer (or the default), an empty registry, and `_connected = False`. -/
def ModbusClientProtocol.init (framer : Option Framer) : StreamState :=
  { framer := framer.getD defaultFramer
    requests := []
    connected := false
    written := []
    nextDid := 0
    completions := [] }

/-- Embeds `ModbusClientProtocol.connectionMade` (lines 72-76): set
`_connected = True`. -/
def ModbusClientProtocol.connectionMade (st : StreamState) : StreamState :=
  { st with connected := true }

/-- Embeds `ModbusClientProtocol.connectionLost` (lines 78-87): set
`_connected = False`, then run
`for key in self._requests: self._requests.pop(key).errback(Failure(ConnectionException(...)))`.
CPython's dict key iterator compares the dict's current size against the
size recorded when iteration began on every `next()` call and raises
`RuntimeError` on any mismatch, so: an empty registry exits the loop
cleanly; a non-empty registry pops and errbacks its first entry and then
raises on the following `next()`, leaving every remaining entry in place.
The `reason` argument is only logged by the source and does not reach the
errback payload. -/
def ModbusClientProtocol.connectionLost (st : StreamState) (reason : String) :
    StreamState × Option PyError :=
  let st := { st with connected := false }
  match st.requests with
  | [] => (st, none)
  | (_, did) :: rest =>
    ({ st with
        requests := rest
        completions := st.completions ++
          [(did, Resolution.errback
              (PyError.connectionException "Connection lost during request"))] },
     some (PyError.runtimeError "dictionary changed size during iteration"))

/-- Embeds `ModbusClientProtocol._handleResponse` (lines 105-116):
`if self._requests and reply:` then `handler = self._requests.pop(tid, None)`;
a found handler (a `Deferred`, always truthy) gets `handler.callback(reply)`,
otherwise the reply is only logged as unrequested.  A falsy `reply` is
modelled as `none`. -/
def ModbusClientProtocol.handleResponse (st : StreamState) (reply : Option Reply) :
    StreamState :=
  if st.requests = [] then st
  else
    match reply with
    | none => st
    | some r =>
      let tid := r.transaction_id
      match (dictPop st.requests tid).1 with
      | some did =>
        { st with
            requests := (dictPop st.requests tid).2
            completions := st.completions ++ [(did, Resolution.callback r)] }
      | none => st

/-- Embeds `ModbusClientProtocol._buildResponse` (lines 118-131): when not
connected, return `defer.fail(Failure(ConnectionException(...)))` — a fresh
deferred that is already errbacked — without touching the registry;
otherwise create a fresh pending deferred, store it in the registry under
`tid`, and return it. -/
def ModbusClientProtocol.buildResponse (st : StreamState) (tid : Nat) :
    StreamState × Nat :=
  if st.connected = false then
    ({ st with
        nextDid := st.nextDid + 1
        completions := st.completions ++
          [(st.nextDid, Resolution.errback
              (PyError.connectionException "Client is not connected"))] },
     st.nextDid)
  else
    ({ st with
        nextDid := st.nextDid + 1
        requests := dictInsert st.requests tid st.nextDid },
     st.nextDid)

/-- Embeds `ModbusClientProtocol.execute` (lines 96-103): assign
`request.transaction_id = _manager.getNextTID()`, encode the request with
the framer, write the packet to the transport, and return
`self._buildResponse(request.transaction_id)`.  Note the transport write
happens unconditionally, before `_buildResponse` consults `_connected`. -/
def ModbusClientProtocol.execute (st : StreamState) (mgr : Nat) (req : Request) :
    StreamExec :=
  let next := getNextTID mgr
  let req := { req with transaction_id := next.2 }
  let packet := st.framer.buildPacket req
  let st := { st with written := st.written ++ [packet] }
  let built := ModbusClientProtocol.buildResponse st req.transaction_id
  { state := built.1, mgr := next.1, tid := req.transaction_id, did := built.2 }

/-- Embeds `ModbusClientProtocol.dataReceived` (lines 89-94): the external
framer incrementally decodes the bytes and invokes `_handleResponse` once
per decoded frame; the decode output is modelled as the list of frames. -/
def ModbusClientProtocol.dataReceived (st : StreamState)
    (frames : List (Option Reply)) : StreamState :=
  frames.foldl ModbusClientProtocol.handleResponse st

/-- State of a datagram-oriented session (`ModbusUdpClientProtocol`): the
framer, the registry `_requests` initialized at line 157 as `deque()` — a
sequence of deferred ids, not a map — the packets written to the
transport, the deferred-id allocator, and the resolution log. -/
structure UdpState where
  framer : Framer
  requests : List Nat
  written : List (List Nat)
  nextDid : Nat
  completions : List (Nat × Resolution)

/-- Result of `ModbusUdpClientProtocol.execute`: the new session state, the
new allocator state, the transaction id assigned to the request, and either
the deferred id returned to the caller or the exception that propagated. -/
structure UdpExec where
  state : UdpState
  mgr : Nat
  tid : Nat
  result : Except PyError Nat

/-- Embeds `ModbusUdpClientProtocol.__init__` (lines 151-157).  The module
imports (lines 35-40) bring in `defer`, `protocol`, `ClientDecoder`,
`ConnectionException`, the framer and transaction classes, the client
mixin and `Failure`, but never `deque`; line 157
`self._requests = deque()` therefore raises `NameError`, whatever the
framer argument, and no usable instance is produced. -/
def ModbusUdpClientProtocol.init (framer : Option Framer) :
    Except PyError UdpState :=
  match framer with
  | _ => Except.error (PyError.nameError "global name deque is not defined")

/-- Embeds Python `dq[i] = v` on a `collections.deque`: assignment to an
existing index replaces that element; assignment to an index outside the
current length raises `IndexError: deque index out of range`. -/
def dequeSet (dq : List Nat) (i : Nat) (v : Nat) : Except PyError (List Nat) :=
  if i < dq.length then Except.ok (dq.set i v)
  else Except.error (PyError.indexError "deque index out of range")

/-- Embeds `ModbusUdpClientProtocol._buildResponse` (lines 189-198): create
a fresh deferred `d`, then execute `self._requests[tid] = d`.  The registry
is the deque of line 157, so the item assignment is a deque index
assignment; on the intended (empty) registry it raises `IndexError`, with
the fresh deferred created but never registered. -/
def ModbusUdpClientProtocol.buildResponse (st : UdpState) (tid : Nat) :
    UdpState × Except PyError Nat :=
  let d := st.nextDid
  let st := { st with nextDid := st.nextDid + 1 }
  match dequeSet st.requests tid d with
  | Except.ok dq => ({ st with requests := dq }, Except.ok d)
  | Except.error e => (st, Except.error e)

/-- Embeds `ModbusUdpClientProtocol.execute` (lines 167-174): assign
`request.transaction_id = _manager.getNextTID()` — the same module-level
`_manager` the stream variant uses — encode, write the packet to the
transport (no connected-state gate), and return
`self._buildResponse(request.transaction_id)`. -/
def ModbusUdpClientProtocol.execute (st : UdpState) (mgr : Nat) (req : Request) :
    UdpExec :=
  let next := getNextTID mgr
  let req := { req with transaction_id := next.2 }
  let packet := st.framer.buildPacket req
  let st := { st with written := st.written ++ [packet] }
  let built := ModbusUdpClientProtocol.buildResponse st req.transaction_id
  { state := built.1, mgr := next.1, tid := req.transaction_id, result := built.2 }

/-- Embeds `ModbusUdpClientProtocol._handleResponse` (lines 176-187): the
guard `if self._requests and reply:` is passed only when the deque registry
is non-empty and the reply truthy; line 183 then reads
`self.requests.pop(tid, None)` — but the instance attribute is named
`_requests`, and neither the class nor its bases define `requests`, so the
attribute lookup raises `AttributeError` before any pop can happen. -/
def ModbusUdpClientProtocol.handleResponse (st : UdpState) (reply : Option Reply) :
    UdpState × Option PyError :=
  if st.requests = [] then (st, none)
  else
    match reply with
    | none => (st, none)
    | some _ =>
      (st, some (PyError.attributeError
        "ModbusUdpClientProtocol instance has no attribute requests"))

/-- Embeds `ModbusUdpClientProtocol.datagramReceived` (lines 159-165): the
source address is logged only; the framer decodes the data and invokes
`_handleResponse` once per decoded frame, stopping if one raises. -/
def ModbusUdpClientProtocol.datagramReceived (st : UdpState)
    (frames : List (Option Reply)) : UdpState × Option PyError :=
  match frames with
  | [] => (st, none)
  | f :: rest =>
    match ModbusUdpClientProtocol.handleResponse st f with
    | (st', none) => ModbusUdpClientProtocol.datagramReceived st' rest
    | (st', some e) => (st', some e)

/-- Sequence of `execute` calls on one stream session threading the shared
allocator; returns the final session state, the final allocator state, and
the transaction ids assigned in order. -/
def executeSeq (st : StreamState) (mgr : Nat) (reqs : List Request) :
    StreamState × Nat × List Nat :=
  match reqs with
  | [] => (st, mgr, [])
  | r :: rs =>
    let out := ModbusClientProtocol.execute st mgr r
    let tail := executeSeq out.state out.mgr rs
    (tail.1, tail.2.1, out.tid :: tail.2.2)

/-- A stream session that went through connect and then connection loss:
`init` → `connectionMade` → `connectionLost` on an empty registry.  It is
disconnected, its registry is empty and nothing has been written yet. -/
def c1_state : StreamState :=
  (ModbusClientProtocol.connectionLost
    (ModbusClientProtocol.connectionMade (ModbusClientProtocol.init none))
    "Connection was closed cleanly").1

/-- A connected stream session with two requests in flight: `init` →
`connectionMade` → two `execute` calls threading the shared allocator from
its initial state.  Its registry is `[(1, 0), (2, 1)]`. -/
def c2_state : StreamState :=
  (executeSeq (ModbusClientProtocol.connectionMade (ModbusClientProtocol.init none)) 0
    [{ transaction_id := 0 }, { transaction_id := 0 }]).1

/-- A connected stream session with one pending request under transaction
id 1 (deferred id 0). -/
def c4_stream : StreamState :=
  { framer := defaultFramer
    requests := [(1, 0)]
    connected := true
    written := [[1]]
    nextDid := 1
    completions := [] }

/-- A datagram session whose deque registry holds one pending deferred. -/
def c4_udp : UdpState :=
  { framer := defaultFramer
    requests := [0]
    written := [[1]]
    nextDid := 1
    completions := [] }

/-- A fresh datagram session in the state line 157 intends to create: the
default framer and an empty deque registry. -/
def c5_udp : UdpState :=
  { framer := defaultFramer
    requests := []
    written := []
    nextDid := 0
    completions := [] }

/-- A connected stream session with transaction ids 1 and 2 pending,
held by deferred ids 10 and 11 respectively. -/
def c6_state : StreamState :=
  { framer := defaultFramer
    requests := [(1, 10), (2, 11)]
    connected := true
    written := []
    nextDid := 12
    completions := [] }

/-- A connected stream session with an empty registry. -/
def c8_stream : StreamState :=
  { framer := defaultFramer
    requests := []
    connected := true
    written := []
    nextDid := 0
    completions := [] }

/-- A datagram session with an empty deque registry, for dispatcher
no-op checks. -/
def c8_udp : UdpState :=
  { framer := defaultFramer
    requests := []
    written := []
    nextDid := 0
    completions := [] }

/-- The value `pop(k, None)` returns is exactly the lookup of `k`. -/
theorem dictPop_fst (m : List (Nat × Nat)) (k : Nat) :
    (dictPop m k).1 = dictGet m k := by
  induction m with
  | nil => rfl
  | cons p rest ih =>
    obtain ⟨k', v⟩ := p
    by_cases h : k' = k <;> simp [dictPop, dictGet, h, ih]

/-- Lookup misses when the key occurs nowhere in the dict. -/
theorem dictGet_eq_none_of_not_mem (m : List (Nat × Nat)) (k : Nat)
    (h : k ∉ m.map Prod.fst) : dictGet m k = none := by
  induction m with
  | nil => rfl
  | cons p rest ih =>
    obtain ⟨k', v⟩ := p
    simp only [List.map_cons, List.mem_cons] at h
    push_neg at h
    have hne : ¬ k' = k := fun hk => h.1 hk.symm
    simp [dictGet, hne, ih h.2]

/-- After popping `k` from a dict with pairwise-distinct keys, looking up
`k` misses. -/
theorem dictGet_pop_none (m : List (Nat × Nat)) (k : Nat)
    (h : (m.map Prod.fst).Nodup) : dictGet (dictPop m k).2 k = none := by
  induction m with
  | nil => rfl
  | cons p rest ih =>
    obtain ⟨k', v⟩ := p
    simp only [List.map_cons, List.nodup_cons] at h
    by_cases hk : k' = k
    · subst hk
      simp [dictPop, dictGet_eq_none_of_not_mem rest k' h.1]
    · simp [dictPop, dictGet, hk, ih h.2]

/-- Popping `k` leaves the lookup of every other key unchanged. -/
theorem dictGet_pop_ne (m : List (Nat × Nat)) (k k' : Nat) (h : k' ≠ k) :
    dictGet (dictPop m k).2 k' = dictGet m k' := by
  induction m with
  | nil => rfl
  | cons p rest ih =>
    obtain ⟨a, b⟩ := p
    by_cases ha : a = k
    · subst ha
      have hne : ¬ a = k' := fun hq => h hq.symm
      simp [dictPop, dictGet, hne]
    · by_cases ha' : a = k'
      · subst ha'
        simp [dictPop, dictGet, ha]
      · simp [dictPop, dictGet, ha, ha', ih]

/-- The transaction id `execute` assigns is the one the shared allocator
issues. -/
theorem execute_tid (st : StreamState) (mgr : Nat) (req : Request) :
    (ModbusClientProtocol.execute st mgr req).tid = (getNextTID mgr).2 := rfl

/-- The allocator state `execute` leaves behind is the allocator state
`getNextTID` leaves behind. -/
theorem execute_mgr (st : StreamState) (mgr : Nat) (req : Request) :
    (ModbusClientProtocol.execute st mgr req).mgr = (getNextTID mgr).1 := rfl

/-- Absent wraparound, a sequence of `execute` calls assigns the
consecutive identifiers `mgr + 1, mgr + 2, ...`. -/
theorem executeSeq_tids (reqs : List Request) (st : StreamState) (mgr : Nat)
    (h : mgr + reqs.length < 65536) :
    (executeSeq st mgr reqs).2.2
      = (List.range reqs.length).map (fun i => mgr + i + 1) := by
  induction reqs generalizing st mgr with
  | nil => simp [executeSeq]
  | cons r rs ih =>
    have h1 : mgr + 1 < 65536 := by
      simp only [List.length_cons] at h
      omega
    have htid : (getNextTID mgr).2 = mgr + 1 := by
      simp [getNextTID, Nat.mod_eq_of_lt h1]
    have hmgr : (getNextTID mgr).1 = mgr + 1 := by
      simp [getNextTID, Nat.mod_eq_of_lt h1]
    have hrec : mgr + 1 + rs.length < 65536 := by
      simp only [List.length_cons] at h
      omega
    simp only [executeSeq, execute_tid, execute_mgr, htid, hmgr,
      ih _ _ hrec, List.length_cons, List.range_succ_eq_map, List.map_cons,
      List.map_map]
    have hcomp : ((fun i => mgr + i + 1) ∘ Nat.succ) = (fun i => mgr + 1 + i + 1) := by
      funext i
      show mgr + Nat.succ i + 1 = mgr + 1 + i + 1
      omega
    rw [hcomp]

/-- C1, counterexample: on the disconnected stream session `c1_state`,
where nothing has been written yet, `execute` does hand the encoded
request to the transport — refuting the claim that on a not-connected
session the request is never sent and no bytes are written. -/
theorem c1_counterexample :
    c1_state.connected = false ∧ c1_state.written = [] ∧
    (ModbusClientProtocol.execute c1_state 0 { transaction_id := 0 }).state.written
      = [[1]] :=
  ⟨rfl, rfl, rfl⟩

/-- C1, amended: on a disconnected stream session, `execute` returns a
handle that is already errbacked with the not-connected
`ConnectionException` and inserts nothing into the registry, but only
after encoding the request and writing its bytes to the transport — the
connected check sits in `_buildResponse`, after `transport.write`. -/
theorem c1_execute_disconnected (st : StreamState) (mgr : Nat) (req : Request)
    (h : st.connected = false) :
    (ModbusClientProtocol.execute st mgr req).did = st.nextDid ∧
    (ModbusClientProtocol.execute st mgr req).state.completions
      = st.completions ++
        [(st.nextDid, Resolution.errback
            (PyError.connectionException "Client is not connected"))] ∧
    (ModbusClientProtocol.execute st mgr req).state.requests = st.requests ∧
    (ModbusClientProtocol.execute st mgr req).state.written
      = st.written ++
        [st.framer.buildPacket { req with transaction_id := (getNextTID mgr).2 }] := by
  simp [ModbusClientProtocol.execute, ModbusClientProtocol.buildResponse, h]

/-- C1, witness: the amended statement evaluated on `c1_state`. -/
theorem c1_witness :
    c1_state.connected = false ∧
    ((ModbusClientProtocol.execute c1_state 0 { transaction_id := 0 }).did
        = c1_state.nextDid ∧
      (ModbusClientProtocol.execute c1_state 0 { transaction_id := 0 }).state.completions
        = c1_state.completions ++
          [(c1_state.nextDid, Resolution.errback
              (PyError.connectionException "Client is not connected"))] ∧
      (ModbusClientProtocol.execute c1_state 0 { transaction_id := 0 }).state.requests
        = c1_state.requests ∧
      (ModbusClientProtocol.execute c1_state 0 { transaction_id := 0 }).state.written
        = c1_state.written ++
          [c1_state.framer.buildPacket
            { transaction_id := (getNextTID 0).2 }]) :=
  ⟨rfl, c1_execute_disconnected c1_state 0 { transaction_id := 0 } rfl⟩

/-- C2, code bug evaluated at the failing input: on the connected stream
session `c2_state` with two pending requests, `connectionLost` errbacks
only the first registry entry with the connection-lost failure and then
raises `RuntimeError` from the mutation of `_requests` inside
`for key in self._requests`; the second entry stays in the registry, so
the registry is not empty afterward. -/
theorem c2_connectionLost_raises :
    (ModbusClientProtocol.connectionLost c2_state "Connection lost").2
      = some (PyError.runtimeError "dictionary changed size during iteration") ∧
    (ModbusClientProtocol.connectionLost c2_state "Connection lost").1.completions
      = [(0, Resolution.errback
          (PyError.connectionException "Connection lost during request"))] ∧
    (ModbusClientProtocol.connectionLost c2_state "Connection lost").1.requests
      = [(2, 1)] :=
  ⟨rfl, rfl, rfl⟩

/-- C3, code bug evaluated at the failing input: the invariant is not
preserved by `connectionLost`: applied to the reachable connected session
`c2_state` with two pending requests, it yields a state with
`_connected = false` whose registry still holds an entry, because the
disconnect loop aborts with `RuntimeError` after failing only the first
one. -/
theorem c3_invariant_violated :
    (ModbusClientProtocol.connectionLost c2_state "Connection lost").1.connected
      = false ∧
    (ModbusClientProtocol.connectionLost c2_state "Connection lost").1.requests
      ≠ [] :=
  ⟨rfl, by decide⟩

/-- C4, code bug evaluated at the failing input: with transaction id 1
pending and a reply carrying id 2, the stream dispatcher logs and discards
the reply, leaving its state untouched, but the datagram dispatcher raises
`AttributeError`, because line 183 reads the nonexistent attribute
`self.requests` instead of `self._requests`. -/
theorem c4_unmatched_dispatch :
    ModbusClientProtocol.handleResponse c4_stream (some { transaction_id := 2 })
      = c4_stream ∧
    ModbusUdpClientProtocol.handleResponse c4_udp (some { transaction_id := 2 })
      = (c4_udp, some (PyError.attributeError
          "ModbusUdpClientProtocol instance has no attribute requests")) :=
  ⟨rfl, rfl⟩

/-- C5, code bug evaluated at the failing input: `execute` on the fresh
datagram session assigns transaction id 1 and writes the encoded packet to
the transport, but then raises `IndexError` from `self._requests[tid] = d`
— the registry is the deque of line 157, not a map — so no pending handle
is inserted into the registry or returned to the caller. -/
theorem c5_udp_execute_raises :
    (ModbusUdpClientProtocol.execute c5_udp 0 { transaction_id := 0 }).tid = 1 ∧
    (ModbusUdpClientProtocol.execute c5_udp 0 { transaction_id := 0 }).state.written
      = [[1]] ∧
    (ModbusUdpClientProtocol.execute c5_udp 0 { transaction_id := 0 }).result
      = Except.error (PyError.indexError "deque index out of range") ∧
    (ModbusUdpClientProtocol.execute c5_udp 0 { transaction_id := 0 }).state.requests
      = [] :=
  ⟨rfl, rfl, rfl, rfl⟩

/-- C6: on the stream session, a reply whose transaction id has a pending
registry entry (registry keys pairwise distinct, as insertion guarantees)
resolves exactly that entry with the reply and removes exactly that entry:
afterwards the id no longer resolves, every other key still looks up to
the same handle, the resolution log grows by exactly that one callback,
and nothing else in the session changes. -/
theorem c6_matched_dispatch (st : StreamState) (r : Reply) (did : Nat)
    (hnd : (st.requests.map Prod.fst).Nodup)
    (hlk : dictGet st.requests r.transaction_id = some did) :
    dictGet (ModbusClientProtocol.handleResponse st (some r)).requests
        r.transaction_id = none ∧
    (∀ k, k ≠ r.transaction_id →
      dictGet (ModbusClientProtocol.handleResponse st (some r)).requests k
        = dictGet st.requests k) ∧
    (ModbusClientProtocol.handleResponse st (some r)).completions
      = st.completions ++ [(did, Resolution.callback r)] ∧
    (ModbusClientProtocol.handleResponse st (some r)).connected = st.connected ∧
    (ModbusClientProtocol.handleResponse st (some r)).written = st.written ∧
    (ModbusClientProtocol.handleResponse st (some r)).nextDid = st.nextDid := by
  have hne : st.requests ≠ [] := by
    intro h0
    rw [h0] at hlk
    simp [dictGet] at hlk
  have hpop : (dictPop st.requests r.transaction_id).1 = some did := by
    rw [dictPop_fst]
    exact hlk
  have hres : ModbusClientProtocol.handleResponse st (some r)
      = { st with
            requests := (dictPop st.requests r.transaction_id).2
            completions := st.completions ++ [(did, Resolution.callback r)] } := by
    simp only [ModbusClientProtocol.handleResponse, if_neg hne, hpop]
  rw [hres]
  exact ⟨dictGet_pop_none _ _ hnd, fun k hk => dictGet_pop_ne _ _ _ hk,
    rfl, rfl, rfl, rfl⟩

/-- C6, witness: on `c6_state` (ids 1 and 2 pending, deferred ids 10 and
11), a reply with id 2 resolves only deferred 11 and removes only that
entry; id 1 still looks up to deferred 10. -/
theorem c6_witness :
    (c6_state.requests.map Prod.fst).Nodup ∧
    dictGet c6_state.requests 2 = some 11 ∧
    dictGet (ModbusClientProtocol.handleResponse c6_state
        (some { transaction_id := 2 })).requests 2 = none ∧
    dictGet (ModbusClientProtocol.handleResponse c6_state
        (some { transaction_id := 2 })).requests 1 = dictGet c6_state.requests 1 ∧
    (ModbusClientProtocol.handleResponse c6_state
        (some { transaction_id := 2 })).completions
      = c6_state.completions ++ [(11, Resolution.callback { transaction_id := 2 })] :=
  ⟨by decide, by decide,
    (c6_matched_dispatch c6_state { transaction_id := 2 } 11 (by decide) (by decide)).1,
    (c6_matched_dispatch c6_state { transaction_id := 2 } 11 (by decide)
      (by decide)).2.1 1 (by decide),
    (c6_matched_dispatch c6_state { transaction_id := 2 } 11 (by decide)
      (by decide)).2.2.1⟩

/-- C7: both session variants assign the transaction identifier issued by
the shared module-level allocator (`_manager.getNextTID()`), and any
sequence of `execute` calls on one stream session whose length stays
within the 16-bit identifier space (no wraparound) assigns pairwise
distinct transaction identifiers. -/
theorem c7_tid_allocation :
    (∀ (sst : StreamState) (ust : UdpState) (mgr : Nat) (req : Request),
      (ModbusClientProtocol.execute sst mgr req).tid = (getNextTID mgr).2 ∧
      (ModbusUdpClientProtocol.execute ust mgr req).tid = (getNextTID mgr).2) ∧
    (∀ (st : StreamState) (mgr : Nat) (reqs : List Request),
      mgr + reqs.length < 65536 → ((executeSeq st mgr reqs).2.2).Nodup) := by
  constructor
  · intro sst ust mgr req
    exact ⟨rfl, rfl⟩
  · intro st mgr reqs h
    rw [executeSeq_tids reqs st mgr h]
    exact List.Nodup.map (fun a b hab => by omega) (List.nodup_range _)

/-- C7, witness: on a fresh connected stream session, two `execute` calls
from allocator state 0 assign the distinct identifiers 1 and 2. -/
theorem c7_witness :
    (ModbusClientProtocol.execute c8_stream 0 { transaction_id := 0 }).tid
      = (getNextTID 0).2 ∧
    (ModbusUdpClientProtocol.execute c8_udp 0 { transaction_id := 0 }).tid
      = (getNextTID 0).2 ∧
    (0 : Nat) + ([{ transaction_id := 0 }, { transaction_id := 0 }] : List Request).length
      < 65536 ∧
    ((executeSeq c8_stream 0
        [{ transaction_id := 0 }, { transaction_id := 0 }]).2.2).Nodup :=
  ⟨(c7_tid_allocation.1 c8_stream c8_udp 0 { transaction_id := 0 }).1,
    (c7_tid_allocation.1 c8_stream c8_udp 0 { transaction_id := 0 }).2,
    by decide,
    c7_tid_allocation.2 c8_stream 0 [{ transaction_id := 0 }, { transaction_id := 0 }]
      (by decide)⟩

/-- C8: whenever the decoded reply is falsy/absent or the pending-request
registry is empty, both dispatchers do nothing: the stream dispatcher
returns its state unchanged and the datagram dispatcher returns its state
unchanged with no error. -/
theorem c8_dispatch_noop (st : StreamState) (ust : UdpState)
    (reply ureply : Option Reply)
    (h1 : st.requests = [] ∨ reply = none)
    (h2 : ust.requests = [] ∨ ureply = none) :
    ModbusClientProtocol.handleResponse st reply = st ∧
    ModbusUdpClientProtocol.handleResponse ust ureply = (ust, none) := by
  constructor
  · rcases h1 with h | h <;> simp [ModbusClientProtocol.handleResponse, h]
  · rcases h2 with h | h <;> simp [ModbusUdpClientProtocol.handleResponse, h]

/-- C8, witness: a truthy reply delivered to either variant with an empty
registry changes nothing and raises nothing. -/
theorem c8_witness :
    c8_stream.requests = [] ∧ c8_udp.requests = [] ∧
    ModbusClientProtocol.handleResponse c8_stream (some { transaction_id := 7 })
      = c8_stream ∧
    ModbusUdpClientProtocol.handleResponse c8_udp (some { transaction_id := 7 })
      = (c8_udp, none) :=
  ⟨rfl, rfl,
    (c8_dispatch_noop c8_stream c8_udp (some { transaction_id := 7 })
      (some { transaction_id := 7 }) (Or.inl rfl) (Or.inl rfl)).1,
    (c8_dispatch_noop c8_stream c8_udp (some { transaction_id := 7 })
      (some { transaction_id := 7 }) (Or.inl rfl) (Or.inl rfl)).2⟩

/-- C9: `execute` on a disconnected stream session leaves the
pending-request registry exactly as it was — no entry is inserted for the
already-failed handle it returns. -/
theorem c9_execute_disconnected_registry (st : StreamState) (mgr : Nat)
    (req : Request) (h : st.connected = false) :
    (ModbusClientProtocol.execute st mgr req).state.requests = st.requests := by
  simp [ModbusClientProtocol.execute, ModbusClientProtocol.buildResponse, h]

/-- C9, witness: on the disconnected session `c1_state` the registry is
untouched by `execute`. -/
theorem c9_witness :
    c1_state.connected = false ∧
    (ModbusClientProtocol.execute c1_state 0 { transaction_id := 0 }).state.requests
      = c1_state.requests :=
  ⟨rfl, c9_execute_disconnected_registry c1_state 0 { transaction_id := 0 } rfl⟩

/-- C10, code bug evaluated at the failing input: constructing a
`ModbusUdpClientProtocol`, with or without an explicit framer, raises
`NameError` at line 157 (`self._requests = deque()`), because the module
never imports `deque`; no instance with an empty registry is ever
produced. -/
theorem c10_udp_init_raises :
    ModbusUdpClientProtocol.init none
      = Except.error (PyError.nameError "global name deque is not defined") ∧
    ModbusUdpClientProtocol.init (some defaultFramer)
      = Except.error (PyError.nameError "global name deque is not defined") :=
  ⟨rfl, rfl⟩
